import Mathlib

/-!
Shallow embedding of the coingecko-price-server repository.

The repository has two TypeScript source files implementing the same core
price-lookup relay behind different transports:

* `src/unnamed/part_000` — WebSocket JSON-RPC variant (`getCoinGeckoPrice`,
  `handleMcpRequest`, the `wss.on('connection')` message handler);
* `src/src/index.ts` — split POST/SSE variant (`getCoinGeckoPrice`,
  `handleMcpRequestViaPost`, `sendSseMessage`, `app.get('/sse')`,
  `app.post('/messages')`).

JavaScript runtime values that flow through the code (parsed JSON bodies,
`params`, `arguments`, request ids) are modelled by the `Json` type below.
JavaScript `undefined` (an absent object field) is modelled by `Option Json`
being `none`; JSON `null` is the explicit constructor `Json.null`.
Numbers are modelled exactly (as rationals); none of the verified
properties depend on floating-point rounding.
-/

mutual

/-- A JavaScript/JSON value as it appears at runtime in the server. -/
inductive Json where
  | null
  | bool (b : Bool)
  | num (q : Rat)
  | str (s : String)
  | arr (xs : JsonList)
  | obj (fields : JsonFields)
  deriving DecidableEq, Repr

/-- A JSON array payload. -/
inductive JsonList where
  | nil
  | cons (hd : Json) (tl : JsonList)
  deriving DecidableEq, Repr

/-- Ordered key/value fields of a JSON object (insertion order, as in JS). -/
inductive JsonFields where
  | nil
  | cons (key : String) (val : Json) (tl : JsonFields)
  deriving DecidableEq, Repr

end

/-- JavaScript truthiness of a value. `0`, `""`, `null` and `false` are falsy;
objects and arrays are always truthy. (`NaN` does not arise in the model.) -/
def Json.truthy : Json → Bool
  | .null => false
  | .bool b => b
  | .num q => q != 0
  | .str s => s != ""
  | .arr _ => true
  | .obj _ => true

/-- Truthiness of a possibly-absent value: JS `undefined` is falsy. -/
def truthyOpt : Option Json → Bool
  | none => false
  | some j => j.truthy

/-- Whether `typeof v === 'string'` holds. -/
def Json.isString : Json → Bool
  | .str _ => true
  | _ => false

/-- Whether `typeof v === 'object'` holds: in JS this is true for objects,
arrays and `null`. -/
def Json.typeofObject : Json → Bool
  | .obj _ => true
  | .arr _ => true
  | .null => true
  | _ => false

/-- Field lookup in an ordered field list (first match wins, as in JS objects
with duplicate keys after parsing). -/
def JsonFields.lookup : JsonFields → String → Option Json
  | .nil, _ => none
  | .cons k v tl, key => if k = key then some v else tl.lookup key

/-- `v[key]` property access. Property access on non-objects yields
`undefined` (modelled as `none`); the server never indexes arrays with a
numeric key, so array element access is not modelled. -/
def Json.getField : Json → String → Option Json
  | .obj fields, key => fields.lookup key
  | _, _ => none

/-- String coercion used by JS template literals. Integral numbers print as
in JS; the display of non-integral rationals and of arrays is an
approximation (no verified property inspects such a rendering). -/
def Json.display : Json → String
  | .null => "null"
  | .bool b => if b then "true" else "false"
  | .num q => if q.den = 1 then toString q.num else toString q
  | .str s => s
  | .arr _ => ""
  | .obj _ => "[object Object]"

/-- Template-literal rendering of a possibly-absent value. -/
def displayOpt : Option Json → String
  | none => "undefined"
  | some j => j.display

/-- Outcome of one upstream CoinGecko call: either the axios `response.data`
(the parsed JSON body of a 2xx answer), or a failure. The `catch` branch of
`getCoinGeckoPrice` computes an error message from the thrown axios error /
exception; that computation is transport-level, so a failure here carries
the already-computed message string. -/
inductive UpstreamResult where
  | success (data : Json)
  | failure (errorMessage : String)
  deriving DecidableEq, Repr

/-- The `{ price?: number; error?: string }` result of `getCoinGeckoPrice`.
At runtime the `price` field holds whatever value `response.data[tokenId].usd`
had, hence `Option Json`. -/
structure PriceOutcome where
  price : Option Json
  error : Option String
  deriving DecidableEq, Repr

/-- `getCoinGeckoPrice(tokenId)` from both source files (the two copies are
identical). The first parameter is the runtime value passed for `tokenId`;
`upstream` is the outcome the single outbound GET would produce. The second
component of the result records whether that outbound network call was made.

Source guard: `if (!tokenId || typeof tokenId !== 'string')` — this
rejects exactly the empty string and every non-string value.
Success guard: `if (response.data && response.data[tokenId] &&
response.data[tokenId].usd)` — three truthiness tests. -/
def getCoinGeckoPrice (tokenId : Json) (upstream : UpstreamResult) :
    PriceOutcome × Bool :=
  match tokenId with
  | .str s =>
    if s = "" then
      ({ price := none, error := some "Invalid or missing token_id parameter." }, false)
    else
      match upstream with
      | .success data =>
        let inner := data.getField s
        let usd := inner.bind (fun v => v.getField "usd")
        if data.truthy && truthyOpt inner && truthyOpt usd then
          ({ price := usd, error := none }, true)
        else
          ({ price := none,
             error := some ("Could not find price data for token ID: " ++ s) }, true)
      | .failure msg => ({ price := none, error := some msg }, true)
  | _ =>
    ({ price := none, error := some "Invalid or missing token_id parameter." }, false)

/-- `isValidPriceArgs` from the source: `typeof args === 'object' && args !==
null && typeof args.token_id === 'string'` (applied to `params.arguments`,
which may be absent). -/
def isValidPriceArgs : Option Json → Bool
  | some a => a.typeofObject && !(a == Json.null) &&
      (match a.getField "token_id" with
       | some (.str _) => true
       | _ => false)
  | none => false

/-- Extraction of `params.arguments.token_id` when `isValidPriceArgs` holds. -/
def priceArgsToken : Option Json → Option String
  | some a => match a.getField "token_id" with
    | some (.str t) => some t
    | _ => none
  | none => none

theorem isValidPriceArgs_eq_isSome (a : Option Json) :
    isValidPriceArgs a = (priceArgsToken a).isSome := by
  match a with
  | none => rfl
  | some .null => rfl
  | some (.bool b) => rfl
  | some (.num q) => rfl
  | some (.str s) => rfl
  | some (.arr xs) => rfl
  | some (.obj fs) =>
    simp only [isValidPriceArgs, priceArgsToken, Json.typeofObject, Json.getField]
    cases h : fs.lookup "token_id" with
    | none => rfl
    | some v => cases v <;> rfl

/-! The `McpErrorCode` enum (JSON-RPC 2.0 error-code convention). -/
namespace McpErrorCode

def ParseError : Int := -32700

def InvalidRequest : Int := -32600

def MethodNotFound : Int := -32601

def InvalidParams : Int := -32602

def InternalError : Int := -32603

end McpErrorCode

/-- The `JsonRpcError` interface: `{ code: number; message: string }`
(the optional `data` field is never populated by the server). -/
structure JsonRpcError where
  code : Int
  message : String
  deriving DecidableEq, Repr

/-- The `JsonRpcResponse` interface. `id` is `none` when the field is
`undefined` at runtime (and is then omitted from the serialized reply);
a JSON `null` id is `some Json.null`. Exactly one of `result`/`error` is
populated by the server. -/
structure JsonRpcResponse where
  id : Option Json
  result : Option Json
  error : Option JsonRpcError
  deriving DecidableEq, Repr

/-- The fields of a parsed `JsonRpcRequest` as destructured by the handlers:
`const { method, params, id } = request`. Each is `none` when absent. -/
structure McpRequest where
  method : Option Json
  params : Option Json
  id : Option Json
  deriving DecidableEq, Repr

/-- Read the three handler-relevant fields out of a parsed request value. -/
def Json.toMcpRequest (j : Json) : McpRequest :=
  { method := j.getField "method", params := j.getField "params", id := j.getField "id" }

/-- `coingeckoToolDefinition`, as the JSON value it serializes to. -/
def coingeckoToolDefinition : Json :=
  Json.obj (.cons "name" (.str "get_coingecko_price")
    (.cons "description" (.str "Get the current price of a cryptocurrency from CoinGecko.")
      (.cons "inputSchema"
        (Json.obj (.cons "type" (.str "object")
          (.cons "properties"
            (Json.obj (.cons "token_id"
              (Json.obj (.cons "type" (.str "string")
                (.cons "description"
                  (.str "The CoinGecko ID of the token (e.g., \x27bitcoin\x27, \x27ethereum\x27).")
                  .nil)))
              .nil))
            (.cons "required" (Json.arr (.cons (.str "token_id") .nil)) .nil))))
        .nil)))

/-- The `result` payload of a `listTools` response:
`{ tools: [coingeckoToolDefinition] }`. -/
def listToolsResult : Json :=
  Json.obj (.cons "tools" (Json.arr (.cons coingeckoToolDefinition .nil)) .nil)

/-- An error response as produced by the handler `catch` blocks. Every object
thrown inside the handlers carries a numeric `code` and a string `message`,
so the catch block (`typeof error.code === 'number' ? error.code :
InternalError`, and likewise for `message`) forwards them unchanged. -/
def mkErrorResponse (id : Option Json) (code : Int) (message : String) : JsonRpcResponse :=
  { id := id, result := none, error := some { code := code, message := message } }

/-- The success payload of a tool call:
`{ content: [{ type: 'text', text: <sentence> }] }`. -/
def mkCallToolResult (text : String) : Json :=
  Json.obj (.cons "content"
    (Json.arr (.cons
      (Json.obj (.cons "type" (.str "text") (.cons "text" (.str text) .nil)))
      .nil))
    .nil)

/-- The string `result.error || 'Failed to get price.'` (JS truthiness:
an empty error string also falls back). -/
def errorOrDefault : Option String → String
  | some e => if e = "" then "Failed to get price." else e
  | none => "Failed to get price."

/-- Extraction of `params.name` guarded as in the source:
`!params || typeof params !== 'object' || typeof params.name !== 'string'`
throws InvalidParams; this returns `some name` exactly when all three
guards pass. (Field access on non-objects yields `undefined`, which is not
a string, so the cases coincide with the source's disjunction.) -/
def paramsToolName : Option Json → Option String
  | some p =>
    if p.truthy && p.typeofObject then
      match p.getField "name" with
      | some (.str n) => some n
      | _ => none
    else none
  | none => none

/-- `handleMcpRequest(request)` from `src/unnamed/part_000` (lines 94-150).
`upstream` is the outcome the outbound CoinGecko call would produce; the
second component records whether `getCoinGeckoPrice` was invoked on this
path. Thrown `{code, message}` literals are modelled directly as the error
response the enclosing `catch` turns them into (see `mkErrorResponse`). -/
def handleMcpRequest (req : McpRequest) (upstream : UpstreamResult) :
    JsonRpcResponse × Bool :=
  if req.method = some (Json.str "listTools") then
    ({ id := req.id, result := some listToolsResult, error := none }, false)
  else if req.method = some (Json.str "callTool") then
    match paramsToolName req.params with
    | none =>
      (mkErrorResponse req.id McpErrorCode.InvalidParams "Invalid params for callTool", false)
    | some toolName =>
      if toolName = "get_coingecko_price" then
        match priceArgsToken ((req.params.bind (fun p => p.getField "arguments"))) with
        | none =>
          (mkErrorResponse req.id McpErrorCode.InvalidParams
            "Invalid arguments for get_coingecko_price: requires a \x22token_id\x22 string.", false)
        | some tokenId =>
          let outcome := (getCoinGeckoPrice (Json.str tokenId) upstream).1
          match outcome.price with
          | some pv =>
            ({ id := req.id,
               result := some (mkCallToolResult
                 ("The current price of " ++ tokenId ++ " is $" ++ pv.display ++ " USD.")),
               error := none }, true)
          | none =>
            (mkErrorResponse req.id McpErrorCode.InternalError
              (errorOrDefault outcome.error), true)
      else
        (mkErrorResponse req.id McpErrorCode.MethodNotFound ("Unknown tool: " ++ toolName), false)
  else
    (mkErrorResponse req.id McpErrorCode.MethodNotFound
      ("Unsupported method: " ++ displayOpt req.method), false)

/-- `handleMcpRequestViaPost` from `src/src/index.ts` (lines 117-163) is a
line-for-line duplicate of `handleMcpRequest`. -/
def handleMcpRequestViaPost : McpRequest → UpstreamResult → JsonRpcResponse × Bool :=
  handleMcpRequest

/-- The basic envelope validation shared by the WebSocket message handler and
`POST /messages`: `request.jsonrpc !== '2.0' || !request.method` throws
InvalidRequest. This returns `true` exactly when the parsed value has a
`jsonrpc` field strictly equal to the string `"2.0"` and a truthy `method`. -/
def rpcEnvelopeOk (j : Json) : Bool :=
  (match j.getField "jsonrpc" with
   | some (.str v) => v == "2.0"
   | _ => false) && truthyOpt (j.getField "method")

/-- The `ws.on('message')` handler from `src/unnamed/part_000` (lines
167-201), given the outcome of `JSON.parse(data.toString())`:

* `.error e` — `JSON.parse` threw a `SyntaxError` with message `e`; the
  captured `requestId` is still its initial `null`, and a `SyntaxError`
  carries no numeric `code`, so the catch block emits `InternalError`;
* `.ok Json.null` — parsing succeeded with `null`; `request.id` access then
  throws a `TypeError` (again no numeric `code`) before any id is captured;
* `.ok j` otherwise — `requestId = request.id` is captured, the envelope is
  validated, and on success the request goes to `handleMcpRequest`.

The second component records whether `getCoinGeckoPrice` was invoked. -/
def wsHandleMessage (parsed : Except String Json) (upstream : UpstreamResult) :
    JsonRpcResponse × Bool :=
  match parsed with
  | .error e =>
    ({ id := some Json.null, result := none,
       error := some { code := McpErrorCode.InternalError, message := e } }, false)
  | .ok Json.null =>
    ({ id := some Json.null, result := none,
       error := some { code := McpErrorCode.InternalError,
                       message := "Cannot read properties of null (reading \x27id\x27)" } }, false)
  | .ok j =>
    let requestId := j.getField "id"
    if rpcEnvelopeOk j then
      handleMcpRequest j.toMcpRequest upstream
    else
      ({ id := requestId, result := none,
         error := some { code := McpErrorCode.InvalidRequest,
                         message := "Invalid JSON-RPC request structure" } }, false)

/-! Split POST/SSE variant (`src/src/index.ts`). The server process state is
the list of SSE response streams created so far (each identified by a
number, with its `writableEnded` flag and the events written to it), the
`activeSseResponse` slot (by stream identifier), and a count of the
warnings logged by `sendSseMessage` when a send is skipped. The
`activeSseClientId` variable of the source is omitted: every assignment to
it sets `null` and it is never read. -/

/-- One `res.write` burst of `sendSseMessage`: the `id:`/`event:`/`data:`
lines of a single SSE event. `eid` is `none` when the `id || Date.now()`
fallback fired (falsy or absent id). -/
structure SseEvent where
  eid : Option Json
  eventName : String
  data : Json
  deriving DecidableEq, Repr

/-- One SSE response stream (an express `Response` used as an event stream). -/
structure SseStream where
  sid : Nat
  writableEnded : Bool
  events : List SseEvent
  deriving DecidableEq, Repr

/-- The mutable state of the split-transport server process. -/
structure ServerState where
  streams : List SseStream
  activeSse : Option Nat
  warnings : Nat
  deriving DecidableEq, Repr

/-- Look up a stream by identifier. -/
def findStream (l : List SseStream) (sid : Nat) : Option SseStream :=
  l.find? (fun s => s.sid == sid)

/-- Append an event to the stream with the given identifier. -/
def appendEventTo (l : List SseStream) (sid : Nat) (e : SseEvent) : List SseStream :=
  l.map (fun s => if s.sid == sid then { s with events := s.events ++ [e] } else s)

/-- Mark the stream with the given identifier as ended (`res.end()`). -/
def endStreamIn (l : List SseStream) (sid : Nat) : List SseStream :=
  l.map (fun s => if s.sid == sid then { s with writableEnded := true } else s)

/-- The SSE `id:` field value: `id || Date.now()` — a falsy or absent id
falls back to a timestamp, modelled as `none`. -/
def sseEventId (id : Option Json) : Option Json :=
  match id with
  | some v => if v.truthy then some v else none
  | none => none

/-- `sendSseMessage(res, id, eventName, data)` (lines 96-108): writes one
event if the target stream exists and is still writable, otherwise logs a
warning and does nothing. `target` is the stream the caller passed
(`activeSseResponse`, possibly `null`). -/
def sendSseMessage (st : ServerState) (target : Option Nat) (id : Option Json)
    (eventName : String) (data : Json) : ServerState :=
  match target with
  | some sid =>
    match findStream st.streams sid with
    | some s =>
      if s.writableEnded then { st with warnings := st.warnings + 1 }
      else { st with streams := appendEventTo st.streams sid ⟨sseEventId id, eventName, data⟩ }
    | none => { st with warnings := st.warnings + 1 }
  | none => { st with warnings := st.warnings + 1 }

/-- Serialization of a `JsonRpcError` into the response body. -/
def errorToJson (e : JsonRpcError) : Json :=
  Json.obj (.cons "code" (.num e.code) (.cons "message" (.str e.message) .nil))

/-- Prepend a field when the value is present (`JSON.stringify` omits
`undefined`-valued fields). -/
def consField (k : String) (v : Option Json) (rest : JsonFields) : JsonFields :=
  match v with
  | some j => .cons k j rest
  | none => rest

/-- The JSON value a `JsonRpcResponse` serializes to. -/
def responseToJson (r : JsonRpcResponse) : Json :=
  Json.obj (.cons "jsonrpc" (.str "2.0")
    (consField "id" r.id
      (consField "result" r.result
        (consField "error" (r.error.map errorToJson) .nil))))

/-- `sendSseJsonResponse(res, response)` (lines 111-114): one `mcp_message`
event carrying the serialized response, with the response id as event id. -/
def sendSseJsonResponse (st : ServerState) (target : Option Nat)
    (r : JsonRpcResponse) : ServerState :=
  sendSseMessage st target r.id "mcp_message" (responseToJson r)

/-- The eviction step at the top of `app.get('/sse')` (lines 172-175): if a
stream is registered in the active slot, `activeSseResponse.end()` is
called on it. The slot itself still holds the old stream at this point. -/
def evictActiveSse (st : ServerState) : ServerState :=
  match st.activeSse with
  | some old => { st with streams := endStreamIn st.streams old }
  | none => st

/-- The remainder of `app.get('/sse')` (lines 177-190): create this
request's response stream, write the `mcp_status` connection-confirmation
event on it (with a `null` event id), then store it in the active slot. -/
def registerNewSse (st : ServerState) (newSid : Nat) : ServerState :=
  let st1 : ServerState := { st with streams := st.streams ++ [⟨newSid, false, []⟩] }
  let st2 : ServerState := sendSseMessage st1 (some newSid) none "mcp_status"
    (Json.obj (.cons "status" (.str "connected") .nil))
  { st2 with activeSse := some newSid }

/-- The whole `app.get('/sse')` handler (lines 170-201): eviction of the
previous stream, then registration of the new one. `newSid` is the fresh
identifier of the newly created response stream. -/
def handleGetSse (st : ServerState) (newSid : Nat) : ServerState :=
  registerNewSse (evictActiveSse st) newSid

/-- The `req.on('close')` handler registered for stream `sid` (lines
195-201): clears the active slot only if it still refers to this stream
(`activeSseResponse === res`). -/
def handleSseClose (st : ServerState) (sid : Nat) : ServerState :=
  if st.activeSse = some sid then { st with activeSse := none } else st

/-- The `SIGINT` handler (lines 267-276): `activeSseResponse.end()` on the
active stream, if any; the slot is not cleared. (Server close and process
exit are outside the model.) -/
def handleSigint (st : ServerState) : ServerState :=
  match st.activeSse with
  | some sid => { st with streams := endStreamIn st.streams sid }
  | none => st

/-- The HTTP answer `app.post('/messages')` gives to the POST caller:
either `202 Accepted` with the fixed acknowledgement body, or an error
status carrying a JSON-RPC error body directly. -/
inductive PostReply where
  | accepted
  | errorStatus (status : Nat) (id : Option Json) (err : JsonRpcError)
  deriving DecidableEq, Repr

/-- `app.post('/messages')` (lines 205-246), given the parsed body and the
outcome the upstream call would produce. Express's JSON middleware (strict
mode) only ever delivers objects or arrays, but the handler is modelled
totally: on a `null` body the `request.id` access would throw a `TypeError`
(no numeric code → InternalError, captured id still `null`).

On a valid envelope: the request runs through `handleMcpRequestViaPost`,
the response is relayed onto the active SSE stream (a no-op plus warning
when there is none or it is no longer writable), and the POST itself is
answered `202`. On a failed envelope validation: the POST is answered
`500` with the JSON-RPC error body, and the same error is additionally
mirrored onto the active stream if one is registered. -/
def handlePostMessages (st : ServerState) (body : Json) (upstream : UpstreamResult) :
    ServerState × PostReply :=
  match body with
  | Json.null =>
    let err : JsonRpcError :=
      { code := McpErrorCode.InternalError, message := "Cannot read properties of null (reading \x27id\x27)" }
    let st1 := if st.activeSse.isSome then
        sendSseJsonResponse st st.activeSse { id := some Json.null, result := none, error := some err }
      else st
    (st1, .errorStatus 500 (some Json.null) err)
  | j =>
    let requestId := j.getField "id"
    if rpcEnvelopeOk j then
      let response := (handleMcpRequestViaPost j.toMcpRequest upstream).1
      (sendSseJsonResponse st st.activeSse response, .accepted)
    else
      let err : JsonRpcError :=
        { code := McpErrorCode.InvalidRequest, message := "Invalid JSON-RPC request structure" }
      let st1 := if st.activeSse.isSome then
          sendSseJsonResponse st st.activeSse { id := requestId, result := none, error := some err }
        else st
      (st1, .errorStatus 500 requestId err)

/-- The externally observable events that drive the split-transport server. -/
inductive ServerEvent where
  | sseConnect (newSid : Nat)
  | sseClose (sid : Nat)
  | postMessage (body : Json) (upstream : UpstreamResult)
  | sigint

/-- One step of the split-transport server. -/
def stepServer (st : ServerState) : ServerEvent → ServerState
  | .sseConnect n => handleGetSse st n
  | .sseClose sid => handleSseClose st sid
  | .postMessage b u => (handlePostMessages st b u).1
  | .sigint => handleSigint st

/-- The state at process start: no streams, empty active slot. -/
def initialServerState : ServerState := { streams := [], activeSse := none, warnings := 0 }

/-- States the split-transport server can actually reach. -/
inductive ReachableServer : ServerState → Prop where
  | init : ReachableServer initialServerState
  | step (st : ServerState) (e : ServerEvent) :
      ReachableServer st → ReachableServer (stepServer st e)

/-! Helper lemmas shared by the claim theorems. -/

theorem obj_of_getField_eq_some {j v : Json} {k : String}
    (h : j.getField k = some v) : ∃ fs, j = Json.obj fs := by
  cases j <;> simp [Json.getField] at h ⊢

theorem truthy_of_getField_eq_some {j v : Json} {k : String}
    (h : j.getField k = some v) : j.truthy = true := by
  obtain ⟨fs, rfl⟩ := obj_of_getField_eq_some h
  rfl

theorem paramsToolName_of_name {p : Json} {n : String}
    (h : p.getField "name" = some (Json.str n)) :
    paramsToolName (some p) = some n := by
  obtain ⟨fs, rfl⟩ := obj_of_getField_eq_some h
  simp [paramsToolName, Json.truthy, Json.typeofObject, h]

/-- Claim C1, amended (corrected): for every non-empty string `tokenId`, if
the upstream GET succeeds with a body whose nested field `tokenId.usd` holds
the numeric value `N` and `N ≠ 0`, then `getCoinGeckoPrice(tokenId)` returns
a result whose price equals `N` and no error (and the network call was
made). The `N ≠ 0` side condition is forced by the source's truthiness
guard `response.data[tokenId].usd`. -/
theorem getCoinGeckoPrice_returns_upstream_price (s : String) (data inner : Json) (q : Rat)
    (hs : s ≠ "") (hinner : data.getField s = some inner)
    (husd : inner.getField "usd" = some (Json.num q)) (hq : q ≠ 0) :
    getCoinGeckoPrice (Json.str s) (UpstreamResult.success data) =
      ({ price := some (Json.num q), error := none }, true) := by
  obtain ⟨dfs, rfl⟩ := obj_of_getField_eq_some hinner
  obtain ⟨ifs, rfl⟩ := obj_of_getField_eq_some husd
  simp [getCoinGeckoPrice, hs, hinner, husd, truthyOpt, Json.truthy, hq]

/-- Witness for C1's amended theorem at `tokenId = "bitcoin"`, `N = 65000`. -/
theorem getCoinGeckoPrice_returns_upstream_price_witness :
    getCoinGeckoPrice (Json.str "bitcoin")
        (UpstreamResult.success (Json.obj (.cons "bitcoin"
          (Json.obj (.cons "usd" (Json.num 65000) .nil)) .nil))) =
      ({ price := some (Json.num 65000), error := none }, true) :=
  getCoinGeckoPrice_returns_upstream_price "bitcoin"
    (Json.obj (.cons "bitcoin" (Json.obj (.cons "usd" (Json.num 65000) .nil)) .nil))
    (Json.obj (.cons "usd" (Json.num 65000) .nil)) 65000
    (by decide) (by decide) (by decide) (by decide)

/-- Counterexample to claim C1 as stated: with an upstream body containing
`bitcoin.usd = 0` (a numeric value), the code returns the domain-miss error
instead of the price `0`, because the guard tests JS truthiness rather than
presence. -/
theorem getCoinGeckoPrice_zero_price_counterexample :
    getCoinGeckoPrice (Json.str "bitcoin")
        (UpstreamResult.success (Json.obj (.cons "bitcoin"
          (Json.obj (.cons "usd" (Json.num 0) .nil)) .nil))) =
      ({ price := none, error := some "Could not find price data for token ID: bitcoin" }, true) ∧
    (getCoinGeckoPrice (Json.str "bitcoin")
        (UpstreamResult.success (Json.obj (.cons "bitcoin"
          (Json.obj (.cons "usd" (Json.num 0) .nil)) .nil)))).1.price ≠ some (Json.num 0) := by
  constructor
  · decide
  · decide

/-- Claim C2 (confirmed): for every input value that is the empty string or
not a string, `getCoinGeckoPrice` returns the error result
`"Invalid or missing token_id parameter."` for every possible upstream
outcome, and the outbound network call is not made. -/
theorem getCoinGeckoPrice_invalid_input (tokenId : Json) (u : UpstreamResult)
    (h : tokenId = Json.str "" ∨ tokenId.isString = false) :
    getCoinGeckoPrice tokenId u =
      ({ price := none, error := some "Invalid or missing token_id parameter." }, false) := by
  cases tokenId <;> simp_all [getCoinGeckoPrice, Json.isString]

/-- Witness for C2 at the empty string and at a numeric input. -/
theorem getCoinGeckoPrice_invalid_input_witness :
    getCoinGeckoPrice (Json.str "") (UpstreamResult.failure "boom") =
      ({ price := none, error := some "Invalid or missing token_id parameter." }, false) ∧
    getCoinGeckoPrice (Json.num 5) (UpstreamResult.success Json.null) =
      ({ price := none, error := some "Invalid or missing token_id parameter." }, false) :=
  ⟨getCoinGeckoPrice_invalid_input (Json.str "") (UpstreamResult.failure "boom") (Or.inl rfl),
   getCoinGeckoPrice_invalid_input (Json.num 5) (UpstreamResult.success Json.null) (Or.inr rfl)⟩

/-- Claim C3 (confirmed): for every non-empty string `tokenId`, if the
upstream call succeeds but the response body lacks the nested field
`tokenId.usd` (either `tokenId` itself is absent, or its value has no `usd`
field), `getCoinGeckoPrice` returns no price and the error
`"Could not find price data for token ID: <tokenId>"`. -/
theorem getCoinGeckoPrice_domain_miss (s : String) (data : Json) (hs : s ≠ "")
    (hmiss : data.getField s = none ∨
      ∃ inner, data.getField s = some inner ∧ inner.getField "usd" = none) :
    getCoinGeckoPrice (Json.str s) (UpstreamResult.success data) =
      ({ price := none,
         error := some ("Could not find price data for token ID: " ++ s) }, true) := by
  rcases hmiss with hnone | ⟨inner, hinner, husd⟩
  · simp [getCoinGeckoPrice, hs, hnone, truthyOpt]
  · simp [getCoinGeckoPrice, hs, hinner, husd, truthyOpt]

/-- Witness for C3 at `tokenId = "dogecoin"` with an upstream body that
lacks the token, and at one where the token value lacks `usd`. -/
theorem getCoinGeckoPrice_domain_miss_witness :
    getCoinGeckoPrice (Json.str "dogecoin")
        (UpstreamResult.success (Json.obj .nil)) =
      ({ price := none,
         error := some "Could not find price data for token ID: dogecoin" }, true) ∧
    getCoinGeckoPrice (Json.str "dogecoin")
        (UpstreamResult.success (Json.obj (.cons "dogecoin" (Json.obj .nil) .nil))) =
      ({ price := none,
         error := some "Could not find price data for token ID: dogecoin" }, true) :=
  ⟨getCoinGeckoPrice_domain_miss "dogecoin" (Json.obj .nil) (by decide) (Or.inl (by decide)),
   getCoinGeckoPrice_domain_miss "dogecoin"
     (Json.obj (.cons "dogecoin" (Json.obj .nil) .nil)) (by decide)
     (Or.inr ⟨Json.obj .nil, by decide, by decide⟩)⟩

/-- Claim C4 (confirmed): for every JSON-RPC request (every method, every
params, every id — including `null`) and every upstream outcome, the
response produced by the request handler carries the request's identifier
unchanged, in success and error responses alike, in both source files. -/
theorem mcpHandler_id_roundtrip (req : McpRequest) (u : UpstreamResult) :
    (handleMcpRequest req u).1.id = req.id ∧
    (handleMcpRequestViaPost req u).1.id = req.id := by
  refine ⟨?_, ?_⟩ <;>
  · simp only [handleMcpRequest, handleMcpRequestViaPost, mkErrorResponse]
    repeat' split <;> try rfl

/-- Claim C5 (confirmed): a `callTool` request whose `params.name` is a
string different from `"get_coingecko_price"` is answered with an error
response whose code is the fixed `MethodNotFound` constant; so is every
request whose method is neither `listTools` nor `callTool`. -/
theorem mcpHandler_method_not_found :
    (∀ (p : Json) (n : String) (rid : Option Json) (u : UpstreamResult),
      p.getField "name" = some (Json.str n) → n ≠ "get_coingecko_price" →
      (handleMcpRequest ⟨some (Json.str "callTool"), some p, rid⟩ u).1.error.map JsonRpcError.code
        = some McpErrorCode.MethodNotFound) ∧
    (∀ (req : McpRequest) (u : UpstreamResult),
      req.method ≠ some (Json.str "listTools") → req.method ≠ some (Json.str "callTool") →
      (handleMcpRequest req u).1.error.map JsonRpcError.code
        = some McpErrorCode.MethodNotFound) := by
  constructor
  · intro p n rid u hname hne
    simp [handleMcpRequest, paramsToolName_of_name hname, hne, mkErrorResponse]
  · intro req u h1 h2
    simp [handleMcpRequest, h1, h2, mkErrorResponse]

/-- Witness for C5: a `callTool` naming the unknown tool `"other_tool"`,
and a request with the unsupported method `"ping"`. -/
theorem mcpHandler_method_not_found_witness :
    (handleMcpRequest ⟨some (Json.str "callTool"),
        some (Json.obj (.cons "name" (Json.str "other_tool") .nil)),
        some Json.null⟩ (UpstreamResult.success Json.null)).1.error.map JsonRpcError.code
      = some McpErrorCode.MethodNotFound ∧
    (handleMcpRequest ⟨some (Json.str "ping"), none, some (Json.num 4)⟩
        (UpstreamResult.success Json.null)).1.error.map JsonRpcError.code
      = some McpErrorCode.MethodNotFound :=
  ⟨mcpHandler_method_not_found.1 (Json.obj (.cons "name" (Json.str "other_tool") .nil))
      "other_tool" (some Json.null) (UpstreamResult.success Json.null) (by decide) (by decide),
   mcpHandler_method_not_found.2 ⟨some (Json.str "ping"), none, some (Json.num 4)⟩
      (UpstreamResult.success Json.null) (by decide) (by decide)⟩

/-- Claim C6 (confirmed): every `listTools` request — whatever its id and
params, and whatever the upstream would answer — yields a success response
whose `tools` list is exactly the one-element list containing the
`get_coingecko_price` tool definition, and `getCoinGeckoPrice` is not
invoked on this path (the call flag is `false`). -/
theorem mcpHandler_listTools_static (ps rid : Option Json) (u : UpstreamResult) :
    handleMcpRequest ⟨some (Json.str "listTools"), ps, rid⟩ u =
      ({ id := rid, result := some listToolsResult, error := none }, false) ∧
    listToolsResult =
      Json.obj (.cons "tools" (Json.arr (.cons coingeckoToolDefinition .nil)) .nil) ∧
    coingeckoToolDefinition.getField "name" = some (Json.str "get_coingecko_price") := by
  refine ⟨?_, rfl, by decide⟩
  simp [handleMcpRequest]

/-- Counterexample to claim C7 as stated: on an inbound message that is not
valid JSON, the WebSocket handler replies with error code `-32603`
(`InternalError`), not `ParseError` (`-32700`) or `InvalidRequest`
(`-32600`): the `SyntaxError` thrown by `JSON.parse` carries no numeric
`code` field, so the catch block's generic mapping applies. The identifier
of the reply is `null`, as the claim says. -/
theorem wsParseError_code_counterexample :
    (wsHandleMessage (Except.error "Unexpected token o in JSON at position 1")
        (UpstreamResult.success Json.null)).1.error.map JsonRpcError.code
      = some McpErrorCode.InternalError ∧
    ¬ ((wsHandleMessage (Except.error "Unexpected token o in JSON at position 1")
          (UpstreamResult.success Json.null)).1.error.map JsonRpcError.code
            = some McpErrorCode.ParseError ∨
       (wsHandleMessage (Except.error "Unexpected token o in JSON at position 1")
          (UpstreamResult.success Json.null)).1.error.map JsonRpcError.code
            = some McpErrorCode.InvalidRequest) ∧
    (wsHandleMessage (Except.error "Unexpected token o in JSON at position 1")
        (UpstreamResult.success Json.null)).1.id = some Json.null := by
  refine ⟨by decide, ?_, by decide⟩
  intro h
  rcases h with h | h <;> revert h <;> decide

/-- Claim C7, amended (corrected): in the WebSocket variant, an inbound
message that is not valid JSON is answered with a JSON-RPC error response
whose error kind is `InternalError` (the catch block's fallback, since the
parse exception carries no numeric code) and whose identifier is `null`;
a message that parses to JSON `null` is likewise answered `InternalError`
with identifier `null`, because reading `request.id` off `null` throws a
`TypeError` before validation runs; for every other parsed value whose
envelope is invalid, the reply has error kind `InvalidRequest` and carries
the request identifier recovered from the parsed message (absent when the
message had none). -/
theorem wsHandleMessage_malformed :
    (∀ (e : String) (u : UpstreamResult),
      wsHandleMessage (Except.error e) u =
        ({ id := some Json.null, result := none,
           error := some { code := McpErrorCode.InternalError, message := e } }, false)) ∧
    (∀ (u : UpstreamResult),
      wsHandleMessage (Except.ok Json.null) u =
        ({ id := some Json.null, result := none,
           error := some { code := McpErrorCode.InternalError,
                           message := "Cannot read properties of null (reading \x27id\x27)" } },
         false)) ∧
    (∀ (j : Json) (u : UpstreamResult), j ≠ Json.null → rpcEnvelopeOk j = false →
      wsHandleMessage (Except.ok j) u =
        ({ id := j.getField "id", result := none,
           error := some { code := McpErrorCode.InvalidRequest,
                           message := "Invalid JSON-RPC request structure" } }, false)) := by
  refine ⟨fun e u => rfl, fun u => rfl, ?_⟩
  intro j u hnn hbad
  cases j <;> simp_all [wsHandleMessage]

/-- Witness for C7's amended theorem: a parse failure; a message parsing to
JSON `null`; a parsed object `{"id": 3}` with no `jsonrpc`/`method`
envelope; and a parsed non-object (`5`, whose recovered id is absent). -/
theorem wsHandleMessage_malformed_witness :
    wsHandleMessage (Except.error "Unexpected end of JSON input")
        (UpstreamResult.failure "down") =
      ({ id := some Json.null, result := none,
         error := some { code := McpErrorCode.InternalError,
                         message := "Unexpected end of JSON input" } }, false) ∧
    wsHandleMessage (Except.ok Json.null) (UpstreamResult.failure "down") =
      ({ id := some Json.null, result := none,
         error := some { code := McpErrorCode.InternalError,
                         message := "Cannot read properties of null (reading \x27id\x27)" } },
       false) ∧
    wsHandleMessage (Except.ok (Json.obj (.cons "id" (Json.num 3) .nil)))
        (UpstreamResult.failure "down") =
      ({ id := some (Json.num 3), result := none,
         error := some { code := McpErrorCode.InvalidRequest,
                         message := "Invalid JSON-RPC request structure" } }, false) ∧
    wsHandleMessage (Except.ok (Json.num 5)) (UpstreamResult.failure "down") =
      ({ id := none, result := none,
         error := some { code := McpErrorCode.InvalidRequest,
                         message := "Invalid JSON-RPC request structure" } }, false) :=
  ⟨wsHandleMessage_malformed.1 "Unexpected end of JSON input" (UpstreamResult.failure "down"),
   wsHandleMessage_malformed.2.1 (UpstreamResult.failure "down"),
   wsHandleMessage_malformed.2.2 (Json.obj (.cons "id" (Json.num 3) .nil))
     (UpstreamResult.failure "down") (by decide) (by decide),
   wsHandleMessage_malformed.2.2 (Json.num 5)
     (UpstreamResult.failure "down") (by decide) (by decide)⟩

theorem findStream_appendEventTo (l : List SseStream) (sid : Nat) (e : SseEvent) :
    findStream (appendEventTo l sid e) sid =
      (findStream l sid).map (fun s => { s with events := s.events ++ [e] }) := by
  induction l with
  | nil => rfl
  | cons hd tl ih =>
    simp only [appendEventTo, List.map_cons, findStream, List.find?] at ih ⊢
    by_cases h : hd.sid == sid
    · simp [h]
    · simp only [h, if_neg] at ih ⊢
      simpa [h] using ih

theorem sendSseMessage_preserves_flags (st : ServerState) (target : Option Nat)
    (id : Option Json) (en : String) (d : Json) :
    ∀ s ∈ (sendSseMessage st target id en d).streams,
      ∃ t ∈ st.streams, s.sid = t.sid ∧ s.writableEnded = t.writableEnded := by
  intro s hs
  rcases target with _ | sid
  · exact ⟨s, hs, rfl, rfl⟩
  · rcases hfind : findStream st.streams sid with _ | t
    · have heq : sendSseMessage st (some sid) id en d = { st with warnings := st.warnings + 1 } := by
        simp [sendSseMessage, hfind]
      rw [heq] at hs
      exact ⟨s, hs, rfl, rfl⟩
    · by_cases hend : t.writableEnded
      · have heq : sendSseMessage st (some sid) id en d = { st with warnings := st.warnings + 1 } := by
          simp [sendSseMessage, hfind, hend]
        rw [heq] at hs
        exact ⟨s, hs, rfl, rfl⟩
      · have heq : sendSseMessage st (some sid) id en d =
            { st with streams := appendEventTo st.streams sid ⟨sseEventId id, en, d⟩ } := by
          simp [sendSseMessage, hfind, hend]
        rw [heq] at hs
        simp only [appendEventTo, List.mem_map] at hs
        obtain ⟨t', ht', rfl⟩ := hs
        by_cases h : t'.sid == sid
        · exact ⟨t', ht', by simp [h], by simp [h]⟩
        · exact ⟨t', ht', by simp [h], by simp [h]⟩

/-- Claim C9 (confirmed): the split variant retains at most one SSE stream.
When `GET /sse` arrives, the handler is the registration step applied after
the eviction step; the eviction step ends whatever stream the active slot
held (before the new stream exists anywhere), the new stream ends up in the
slot, and the old stream is still ended in the final state. The
close/disconnect handler clears the slot only when it still refers to that
same stream: a disconnect of an already-replaced stream leaves the newer
registration intact (the state is unchanged). -/
theorem sse_single_slot :
    (∀ (st : ServerState) (old newSid : Nat), st.activeSse = some old →
      handleGetSse st newSid = registerNewSse (evictActiveSse st) newSid ∧
      (∀ s ∈ (evictActiveSse st).streams, s.sid = old → s.writableEnded = true) ∧
      (handleGetSse st newSid).activeSse = some newSid ∧
      (old ≠ newSid →
        ∀ s ∈ (handleGetSse st newSid).streams, s.sid = old → s.writableEnded = true)) ∧
    (∀ (st : ServerState) (sid : Nat), st.activeSse = some sid →
      (handleSseClose st sid).activeSse = none) ∧
    (∀ (st : ServerState) (sid : Nat), st.activeSse ≠ some sid →
      handleSseClose st sid = st) := by
  refine ⟨?_, ?_, ?_⟩
  · intro st old newSid hact
    have hevict : ∀ s ∈ (evictActiveSse st).streams, s.sid = old → s.writableEnded = true := by
      intro s hs hsid
      simp only [evictActiveSse, hact] at hs
      simp only [endStreamIn, List.mem_map] at hs
      obtain ⟨t, ht, rfl⟩ := hs
      by_cases h : t.sid == old
      · simp [h]
      · simp only [h, if_neg] at hsid ⊢
        simp at h
        exact absurd hsid h
    refine ⟨rfl, hevict, rfl, ?_⟩
    intro hne s hs hsid
    have hs2 : s ∈ (registerNewSse (evictActiveSse st) newSid).streams := hs
    simp only [registerNewSse] at hs2
    obtain ⟨t, ht, hsid', hend'⟩ := sendSseMessage_preserves_flags _ (some newSid) none
      "mcp_status" (Json.obj (.cons "status" (.str "connected") .nil)) s hs2
    rcases List.mem_append.mp ht with htl | hnew
    · rw [hend']
      exact hevict t htl (by rw [← hsid', hsid])
    · simp only [List.mem_singleton] at hnew
      subst hnew
      simp only [hsid'] at hsid
      exact absurd hsid.symm hne
  · intro st sid h
    simp [handleSseClose, h]
  · intro st sid h
    simp [handleSseClose, h]

/-- Witness for C9: a state with stream 0 registered; a second connect ends
stream 0 and registers stream 1; a close event for the stale stream 1
leaves a slot holding stream 0 untouched, while a close for stream 0
clears it. -/
theorem sse_single_slot_witness :
    ((handleGetSse { streams := [⟨0, false, []⟩], activeSse := some 0, warnings := 0 } 1).activeSse
        = some 1) ∧
    (∀ s ∈ (handleGetSse { streams := [⟨0, false, []⟩], activeSse := some 0, warnings := 0 } 1).streams,
      s.sid = 0 → s.writableEnded = true) ∧
    (handleSseClose { streams := [⟨0, false, []⟩], activeSse := some 0, warnings := 0 } 1
        = { streams := [⟨0, false, []⟩], activeSse := some 0, warnings := 0 }) ∧
    (handleSseClose { streams := [⟨0, false, []⟩], activeSse := some 0, warnings := 0 } 0).activeSse
        = none := by
  refine ⟨?_, ?_, ?_, ?_⟩
  · exact (sse_single_slot.1 _ 0 1 rfl).2.2.1
  · exact (sse_single_slot.1 _ 0 1 rfl).2.2.2 (by decide)
  · exact sse_single_slot.2.2 _ 1 (by decide)
  · exact sse_single_slot.2.1 _ 0 rfl

/-- Claim C10 (confirmed): in the split variant, for every POST body that
passes envelope validation (such bodies are necessarily objects), if at
relay time no stream is registered in the active slot — or the registered
stream is gone or has already ended — then the JSON-RPC response is
silently discarded: the server state is unchanged except for one logged
warning, no stream receives anything, no error is reported, and the POST
caller still receives `202 Accepted`. -/
theorem post_silent_discard_without_stream (st : ServerState) (fs : JsonFields)
    (u : UpstreamResult) (hok : rpcEnvelopeOk (Json.obj fs) = true)
    (hno : st.activeSse = none ∨
      ∃ sid, st.activeSse = some sid ∧
        (findStream st.streams sid = none ∨
         ∃ s, findStream st.streams sid = some s ∧ s.writableEnded = true)) :
    handlePostMessages st (Json.obj fs) u =
      ({ st with warnings := st.warnings + 1 }, PostReply.accepted) := by
  rcases hno with hnone | ⟨sid, hsid, hmiss⟩
  · simp [handlePostMessages, hok, sendSseJsonResponse, sendSseMessage, hnone]
  · rcases hmiss with hfind | ⟨s, hfind, hend⟩
    · simp [handlePostMessages, hok, sendSseJsonResponse, sendSseMessage, hsid, hfind]
    · simp [handlePostMessages, hok, sendSseJsonResponse, sendSseMessage, hsid, hfind, hend]

/-- Witness for C10: an empty slot, and a slot holding an already-ended
stream; in both cases a valid `listTools` POST yields `202` and only a
warning. -/
theorem post_silent_discard_without_stream_witness :
    handlePostMessages { streams := [], activeSse := none, warnings := 0 }
        (Json.obj (.cons "jsonrpc" (.str "2.0")
          (.cons "method" (.str "listTools") (.cons "id" (Json.num 1) .nil))))
        (UpstreamResult.success Json.null) =
      ({ streams := [], activeSse := none, warnings := 1 }, PostReply.accepted) ∧
    handlePostMessages { streams := [⟨0, true, []⟩], activeSse := some 0, warnings := 0 }
        (Json.obj (.cons "jsonrpc" (.str "2.0")
          (.cons "method" (.str "listTools") (.cons "id" (Json.num 1) .nil))))
        (UpstreamResult.success Json.null) =
      ({ streams := [⟨0, true, []⟩], activeSse := some 0, warnings := 1 }, PostReply.accepted) :=
  ⟨post_silent_discard_without_stream { streams := [], activeSse := none, warnings := 0 }
      (.cons "jsonrpc" (.str "2.0") (.cons "method" (.str "listTools") (.cons "id" (Json.num 1) .nil)))
      (UpstreamResult.success Json.null) (by decide) (Or.inl rfl),
   post_silent_discard_without_stream { streams := [⟨0, true, []⟩], activeSse := some 0, warnings := 0 }
      (.cons "jsonrpc" (.str "2.0") (.cons "method" (.str "listTools") (.cons "id" (Json.num 1) .nil)))
      (UpstreamResult.success Json.null) (by decide)
      (Or.inr ⟨0, rfl, Or.inr ⟨⟨0, true, []⟩, by decide, rfl⟩⟩)⟩

/-- The JSON-RPC error body for a failed envelope validation. -/
def invalidEnvelopeError : JsonRpcError :=
  { code := McpErrorCode.InvalidRequest, message := "Invalid JSON-RPC request structure" }

/-- The `mcp_message` event mirroring an envelope-validation error (with
recovered request id `rid`) onto the active SSE stream. -/
def invalidEnvelopeMirrorEvent (rid : Option Json) : SseEvent :=
  { eid := sseEventId rid, eventName := "mcp_message",
    data := responseToJson { id := rid, result := none, error := some invalidEnvelopeError } }

/-- Claim C8, amended (corrected): in the split variant, a POST whose body
passes envelope validation is acknowledged `202 Accepted` regardless of
whether the relay onto the SSE stream succeeded; a POST whose (non-null)
body fails validation is answered HTTP `500` carrying the JSON-RPC
`InvalidRequest` error body directly, and that error is additionally
written onto the active SSE stream when one is registered AND still
writable — when the registered stream has already ended, the mirror
attempt is skipped with only a warning. -/
theorem post_ack_and_error_mirroring :
    (∀ (st : ServerState) (j : Json) (u : UpstreamResult), rpcEnvelopeOk j = true →
      (handlePostMessages st j u).2 = PostReply.accepted) ∧
    (∀ (st : ServerState) (j : Json) (u : UpstreamResult),
      j ≠ Json.null → rpcEnvelopeOk j = false →
      (handlePostMessages st j u).2 =
        PostReply.errorStatus 500 (j.getField "id") invalidEnvelopeError) ∧
    (∀ (st : ServerState) (j : Json) (u : UpstreamResult) (sid : Nat) (s : SseStream),
      j ≠ Json.null → rpcEnvelopeOk j = false → st.activeSse = some sid →
      findStream st.streams sid = some s → s.writableEnded = false →
      findStream (handlePostMessages st j u).1.streams sid =
        some { s with events := s.events ++ [invalidEnvelopeMirrorEvent (j.getField "id")] }) ∧
    (∀ (st : ServerState) (j : Json) (u : UpstreamResult) (sid : Nat) (s : SseStream),
      j ≠ Json.null → rpcEnvelopeOk j = false → st.activeSse = some sid →
      findStream st.streams sid = some s → s.writableEnded = true →
      (handlePostMessages st j u).1 = { st with warnings := st.warnings + 1 }) := by
  refine ⟨?_, ?_, ?_, ?_⟩
  · intro st j u hok
    cases j <;> simp_all [rpcEnvelopeOk, Json.getField, handlePostMessages]
  · intro st j u hnn hbad
    cases j <;> simp_all [handlePostMessages, invalidEnvelopeError]
  · intro st j u sid s hnn hbad hsid hfind hend
    cases j <;> simp_all [handlePostMessages, sendSseJsonResponse, sendSseMessage, invalidEnvelopeError, invalidEnvelopeMirrorEvent,
      findStream_appendEventTo]
  · intro st j u sid s hnn hbad hsid hfind hend
    cases j <;> simp_all [handlePostMessages, sendSseJsonResponse, sendSseMessage]

/-- Witness for C8's amended theorem: a valid `listTools` POST against an
empty slot is still acknowledged `202`; an invalid body `{"id": 1}` against
a writable registered stream gets the `500` reply and the mirrored error
event on that stream. -/
theorem post_ack_and_error_mirroring_witness :
    (handlePostMessages { streams := [], activeSse := none, warnings := 0 }
        (Json.obj (.cons "jsonrpc" (.str "2.0")
          (.cons "method" (.str "listTools") (.cons "id" (Json.num 1) .nil))))
        (UpstreamResult.success Json.null)).2 = PostReply.accepted ∧
    (handlePostMessages { streams := [⟨0, false, []⟩], activeSse := some 0, warnings := 0 }
        (Json.obj (.cons "id" (Json.num 1) .nil))
        (UpstreamResult.success Json.null)).2 =
      PostReply.errorStatus 500 (some (Json.num 1)) invalidEnvelopeError ∧
    findStream (handlePostMessages { streams := [⟨0, false, []⟩], activeSse := some 0, warnings := 0 }
        (Json.obj (.cons "id" (Json.num 1) .nil))
        (UpstreamResult.success Json.null)).1.streams 0 =
      some ⟨0, false, [invalidEnvelopeMirrorEvent (some (Json.num 1))]⟩ :=
  ⟨post_ack_and_error_mirroring.1 { streams := [], activeSse := none, warnings := 0 }
      (Json.obj (.cons "jsonrpc" (.str "2.0")
        (.cons "method" (.str "listTools") (.cons "id" (Json.num 1) .nil))))
      (UpstreamResult.success Json.null) (by decide),
   post_ack_and_error_mirroring.2.1 { streams := [⟨0, false, []⟩], activeSse := some 0, warnings := 0 }
      (Json.obj (.cons "id" (Json.num 1) .nil))
      (UpstreamResult.success Json.null) (by decide) (by decide),
   post_ack_and_error_mirroring.2.2.1
      { streams := [⟨0, false, []⟩], activeSse := some 0, warnings := 0 }
      (Json.obj (.cons "id" (Json.num 1) .nil))
      (UpstreamResult.success Json.null) 0 ⟨0, false, []⟩
      (by decide) (by decide) rfl (by decide) rfl⟩

/-- A reachable state in which the active slot still holds stream 0 but that
stream has already been ended: connect stream 0, then the `SIGINT` handler
runs `activeSseResponse.end()` without clearing the slot. -/
def endedActiveState : ServerState :=
  stepServer (stepServer initialServerState (ServerEvent.sseConnect 0)) ServerEvent.sigint

/-- Counterexample to claim C8 as stated: in the reachable state
`endedActiveState` an SSE stream exists in the active slot, and a POST with
an invalid envelope is answered with the `500` JSON-RPC error body — but
nothing is written to that stream (its event list is unchanged; only a
warning is recorded), contradicting "that error is additionally written to
the active SSE stream when one exists". -/
theorem post_error_mirror_counterexample :
    ReachableServer endedActiveState ∧
    endedActiveState.activeSse = some 0 ∧
    (handlePostMessages endedActiveState (Json.obj (.cons "id" (Json.num 1) .nil))
        (UpstreamResult.success Json.null)).2 =
      PostReply.errorStatus 500 (some (Json.num 1)) invalidEnvelopeError ∧
    (findStream (handlePostMessages endedActiveState (Json.obj (.cons "id" (Json.num 1) .nil))
        (UpstreamResult.success Json.null)).1.streams 0).map SseStream.events =
      (findStream endedActiveState.streams 0).map SseStream.events ∧
    (handlePostMessages endedActiveState (Json.obj (.cons "id" (Json.num 1) .nil))
        (UpstreamResult.success Json.null)).1.warnings = endedActiveState.warnings + 1 := by
  refine ⟨?_, by decide, by decide, by decide, by decide⟩
  exact ReachableServer.step _ ServerEvent.sigint
    (ReachableServer.step _ (ServerEvent.sseConnect 0) ReachableServer.init)
